import Mathlib

/-!
Verification of the webhook ingestion and event-dispatch contract of the
slack-bot repository.

The development shallowly embeds the two entry points that drive dispatch:

* `handle_api_gateway_event` / `lambda_handler` / `process_message_with_agent`
  from `slack_agent/main.py` — the request/response (webhook, AWS Lambda)
  hosting mode;
* `new_message_callback` / `create_agent_run` from
  `slack_app/listeners/events/new_message.py` — the socket-mode hosting mode.

Python dictionaries with optional keys become structures with `Option` fields;
`dict.get(k, d)` becomes `Option.getD`; Python truthiness of an optional
string becomes `truthy`.  The external collaborators — the JSON parser, the
upstream agent (`slack_agent.invoke` / `client.runs.wait`) and the chat
platform channel lookup (`client.conversations_info`) — are parameters of the
embedded functions; an exception raised by Python code is an `Except.error`,
and a `try/except` block is a `match` on the `Except` value of the guarded
region.  Side effects are recorded as explicit traces: the list of agent
invocations (`AgentRequest`) and the list of posted chat replies (`Reply`).
-/

set_option autoImplicit false

namespace SlackBot

/-- Role-tagged message fragment of an agent run result.  In
`slack_agent/main.py` a fragment is an object whose `content` attribute may be
absent (the code guards with `hasattr`); in `new_message.py` it is a dict with
a `"type"` role tag and a `"content"` entry that may be missing.  `content` is
`none` when the attribute/key is absent. -/
structure AgentMessage where
  type : String
  content : Option String
deriving DecidableEq, Repr

/-- Terminal result of an agent run: the ordered sequence of role-tagged
message fragments under the `"messages"` key. -/
structure AgentResult where
  messages : List AgentMessage
deriving DecidableEq, Repr

/-- Initial state handed to `slack_agent.invoke` in
`process_message_with_agent`: `{"slack_message": message, "messages": [],
"message_classification": None}`. -/
structure AgentState where
  slack_message : String
  messages : List AgentMessage
  message_classification : Option String
deriving DecidableEq, Repr

/-- One downstream agent invocation recorded in the side-effect trace.  Both
call sites start a fresh run with no conversation-thread continuity
(`thread_id=None` in `create_agent_run`; a fresh initial state in
`process_message_with_agent`), so the request is its input text. -/
structure AgentRequest where
  input_text : String
deriving DecidableEq, Repr

/-- One outbound chat reply recorded in the side-effect trace: the
`say(thread_ts=…, text=…)` call of `new_message_callback`. -/
structure Reply where
  thread_ts : Option String
  text : String
deriving DecidableEq, Repr

/-- HTTP-shaped response returned by the Lambda handlers. -/
structure Response where
  statusCode : Nat
  body : String
deriving DecidableEq, Repr

/-- Nested Slack event object: the `event` entry of an `event_callback` body,
and also the event dict delivered to the socket-mode listener.  Every key may
be absent. -/
structure SlackEvent where
  bot_id : Option String
  text : Option String
  channel : Option String
  user : Option String
  ts : Option String
deriving DecidableEq, Repr

/-- Parsed JSON body of a webhook POST. -/
structure SlackBody where
  type : Option String
  challenge : Option String
  event : Option SlackEvent
deriving DecidableEq, Repr

/-- Python truthiness of an optional string: `None` and `""` are falsy. -/
def truthy : Option String → Bool
  | none => false
  | some s => s != ""

/-- Event object defaulted in by `body.get('event', {})`. -/
def emptyEvent : SlackEvent := ⟨none, none, none, none, none⟩

/-- Rendering of `json.dumps({'status': s})`. -/
def statusBody (s : String) : String :=
  "\x7b\"status\": \"" ++ s ++ "\"\x7d"

/-- Rendering of `json.dumps({'error': s})`. -/
def errorBody (s : String) : String :=
  "\x7b\"error\": \"" ++ s ++ "\"\x7d"

/-- Fallback success phrase of `process_message_with_agent`. -/
def successText : String := "I processed your message successfully."

/-- String built by the `except` clause of `process_message_with_agent`:
`f"Sorry, I encountered an error processing your message: {str(e)}"`. -/
def apologyText (e : String) : String :=
  "Sorry, I encountered an error processing your message: " ++ e

/-- Try-block of `process_message_with_agent` (`main.py` lines 104–120): run
the agent on the fresh initial state, then extract the reply — the `content`
of the last message of the run when the sequence is non-empty and that last
message has a `content` attribute, else the fixed success phrase.  An
`Except.error` is an exception escaping the try-block (only the agent
invocation can raise; the extraction is total). -/
def process_message_try (invoke : AgentState → Except String AgentResult)
    (message : String) : Except String String :=
  match invoke ⟨message, [], none⟩ with
  | .error e => .error e
  | .ok result =>
    .ok (match result.messages.getLast? with
      | some lastMsg =>
        match lastMsg.content with
        | some c => c
        | none => successText
      | none => successText)

/-- Embedding of `process_message_with_agent` (`main.py` lines 100–124): the
try-block result, with any escaping exception converted by the `except`
clause into the apology string carrying `str(e)`. -/
def process_message_with_agent (invoke : AgentState → Except String AgentResult)
    (message : String) : String :=
  match process_message_try invoke message with
  | .ok s => s
  | .error e => apologyText e

/-- Try-block of `handle_api_gateway_event` (`main.py` lines 34–65).  The
`body` argument is the outcome of `json.loads(event.get('body', '{}'))`:
`none` when the raw body does not parse (the raised `JSONDecodeError`), else
the parsed object.  Returns the HTTP response together with the side-effect
trace (agent invocations, chat replies).  The handler never calls any chat
posting API — the agent response is only logged — so its reply trace is
always empty. -/
def handle_api_gateway_try (invoke : AgentState → Except String AgentResult)
    (body : Option SlackBody) :
    Except String (Response × List AgentRequest × List Reply) :=
  match body with
  | none => .error "JSONDecodeError"
  | some b =>
    if b.type = some "url_verification" then
      .ok (⟨200, b.challenge.getD ""⟩, [], [])
    else if b.type = some "event_callback" then
      let slack_event := b.event.getD emptyEvent
      if truthy slack_event.bot_id then
        .ok (⟨200, statusBody "ignored_bot_message"⟩, [], [])
      else
        let message := slack_event.text.getD ""
        if message ≠ "" then
          let _response := process_message_with_agent invoke message
          .ok (⟨200, statusBody "success"⟩, [⟨message⟩], [])
        else
          .ok (⟨200, statusBody "success"⟩, [], [])
    else
      .ok (⟨200, statusBody "success"⟩, [], [])

/-- Embedding of `handle_api_gateway_event` (`main.py` lines 30–72): the
try-block result, with any escaping exception converted by the `except`
clause into HTTP 400 `Bad request` with no side effects. -/
def handle_api_gateway_event (invoke : AgentState → Except String AgentResult)
    (body : Option SlackBody) : Response × List AgentRequest × List Reply :=
  match handle_api_gateway_try invoke body with
  | .ok r => r
  | .error _ => (⟨400, errorBody "Bad request"⟩, [], [])

/-- Embedding of the top-level `lambda_handler` try/except (`main.py` lines
13–28): `inner` is the outcome of the dispatch performed inside the try-block
(an `.error` is an unhandled exception escaping it, i.e. an internal fault
outside the request-body handling); the `except` clause converts it into
HTTP 500. -/
def lambda_handler (inner : Except String Response) : Response :=
  match inner with
  | .ok r => r
  | .error _ => ⟨500, errorBody "Internal server error"⟩

/-- Embedding of `create_agent_run` (`new_message.py` lines 14–24):
submits the message as a fresh run (`thread_id=None`) against the upstream
assistant and blocks for the terminal result.  The upstream client
`client.runs.wait` is the parameter `runs_wait`; a transport or upstream
failure is its `Except.error`. -/
def create_agent_run (runs_wait : String → Except String AgentResult)
    (message : String) : Except String AgentResult :=
  runs_wait message

/-- Side-effect trace of one socket-mode callback invocation. -/
structure SocketEffects where
  acked : Nat
  agentRequests : List AgentRequest
  replies : List Reply
deriving DecidableEq, Repr

/-- Embedding of `new_message_callback` (`new_message.py` lines 26–51).
`conversations_info` is the chat-platform channel lookup, collapsed to the
`name_normalized` field it is read for (`none` when that field is absent).
The callback acks, resolves the channel name, and short-circuits (returning
only the ack) when the resolved name differs from the allow-listed
`"all-ai-tools-testing"` or the message text is falsy; otherwise it runs the
agent, picks the last fragment whose `"type"` tag is `"ai"`, and posts its
content as a threaded reply anchored at the event's `ts`.  An `Except.error`
is an exception escaping the callback: a failed agent run, the `[-1]` index
on an empty filtered list, or a missing `"content"` key. -/
def new_message_callback (conversations_info : Option String → Option String)
    (runs_wait : String → Except String AgentResult)
    (event : SlackEvent) : Except String SocketEffects :=
  let message := event.text
  let channel_name := conversations_info event.channel
  if channel_name ≠ some "all-ai-tools-testing" then
    .ok ⟨1, [], []⟩
  else if truthy message = false then
    .ok ⟨1, [], []⟩
  else
    let m := message.getD ""
    match create_agent_run runs_wait m with
    | .error e => .error e
    | .ok agent_run =>
      match (agent_run.messages.filter (fun msg => msg.type == "ai")).getLast? with
      | none => .error "IndexError: list index out of range"
      | some last_ai_message =>
        match last_ai_message.content with
        | none => .error "KeyError: content"
        | some c => .ok ⟨1, [⟨m⟩], [⟨event.ts, c⟩]⟩

/-- Sequential processing of a batch of webhook deliveries by the Lambda
handler, concatenating the side-effect traces.  The handler keeps no state
between invocations, which this fold makes explicit. -/
def runBatch (invoke : AgentState → Except String AgentResult) :
    List (Option SlackBody) → List Response × List AgentRequest × List Reply
  | [] => ([], [], [])
  | b :: rest =>
    let out := handle_api_gateway_event invoke b
    let outs := runBatch invoke rest
    (out.1 :: outs.1, out.2.1 ++ outs.2.1, out.2.2 ++ outs.2.2)

/-- Sequential processing of a batch of socket-mode deliveries: each event is
handled by an independent callback invocation, with no shared state. -/
def runSocketBatch (conversations_info : Option String → Option String)
    (runs_wait : String → Except String AgentResult)
    (events : List SlackEvent) : List (Except String SocketEffects) :=
  events.map (new_message_callback conversations_info runs_wait)

/-! Concrete environments used to instantiate the external collaborators in
witnesses and counterexamples. -/

/-- Agent environment (webhook mode) that always succeeds with a single
agent-authored fragment of content `"done"`. -/
def okInvoke : AgentState → Except String AgentResult :=
  fun _ => .ok ⟨[⟨"ai", some "done"⟩]⟩

/-- Agent environment (socket mode) that always succeeds with a single
agent-authored fragment of content `"done"`. -/
def okRun : String → Except String AgentResult :=
  fun _ => .ok ⟨[⟨"ai", some "done"⟩]⟩

/-- Channel lookup under which every channel id resolves to the allow-listed
display name. -/
def demoResolve : Option String → Option String :=
  fun _ => some "all-ai-tools-testing"

/-- Channel lookup under which every channel id resolves to a display name
different from the allow-listed one. -/
def demoResolveOther : Option String → Option String :=
  fun _ => some "random-channel"

/-- Webhook body: an `event_callback` carrying a non-bot message `"hello"`
from channel id `"C0"` with timestamp id `"171.001"`. -/
def demoBody : SlackBody :=
  ⟨some "event_callback", none, some ⟨none, some "hello", some "C0", some "U0", some "171.001"⟩⟩

/-- Socket-mode event carrying a bot-author marker (`bot_id` set). -/
def botEvent : SlackEvent :=
  ⟨some "B042", some "bot says hi", some "C0", none, some "171.002"⟩

/-- Webhook body: an `event_callback` from channel id `"C999"` (a channel
other than the allow-listed one) with non-bot text `"hi there"`. -/
def otherChannelBody : SlackBody :=
  ⟨some "event_callback", none, some ⟨none, some "hi there", some "C999", some "U7", some "171.003"⟩⟩

/-- Every parsed webhook body is handled inside the try-block without an
escaping exception, always with HTTP status 200, and with an empty reply
trace (the handler never posts to the chat surface). -/
theorem api_gateway_try_ok (invoke : AgentState → Except String AgentResult)
    (b : SlackBody) :
    ∃ bodyStr reqs,
      handle_api_gateway_try invoke (some b) = .ok (⟨200, bodyStr⟩, reqs, []) := by
  simp only [handle_api_gateway_try]
  repeat' split
  all_goals exact ⟨_, _, rfl⟩

/-- C2: a body whose `type` is `url_verification` carrying challenge `c` is
answered with status 200 and exactly `c` as the body; no agent invocation and
no reply is produced. -/
theorem C2_url_verification_echo (invoke : AgentState → Except String AgentResult)
    (c : String) (ev : Option SlackEvent) :
    handle_api_gateway_event invoke (some ⟨some "url_verification", some c, ev⟩)
      = (⟨200, c⟩, [], []) := rfl

/-- C8: webhook status contract — an unparseable body yields HTTP 400; an
unhandled internal fault escaping to the top-level handler yields HTTP 500;
every handled case (any parsed body, any agent behaviour) yields HTTP 200. -/
theorem C8_http_status_contract :
    (∀ invoke, handle_api_gateway_event invoke none
        = (⟨400, errorBody "Bad request"⟩, [], []))
    ∧ (∀ e, lambda_handler (.error e) = ⟨500, errorBody "Internal server error"⟩)
    ∧ (∀ invoke b, (handle_api_gateway_event invoke (some b)).1.statusCode = 200) := by
  refine ⟨fun invoke => rfl, fun e => rfl, fun invoke b => ?_⟩
  obtain ⟨bodyStr, reqs, h⟩ := api_gateway_try_ok invoke b
  simp [handle_api_gateway_event, h]

/-- Falsy optional text defaults to the empty string under `.get('text', '')`. -/
theorem getD_empty_of_not_truthy {tOpt : Option String} (h : truthy tOpt = false) :
    tOpt.getD "" = "" := by
  cases tOpt with
  | none => rfl
  | some s => simpa [truthy] using h

/-- Accepted webhook events — `event_callback`, no bot-author marker,
non-empty text — produce exactly one agent invocation carrying the event's
text, no reply, and the generic success response. -/
theorem handle_accepted (invoke : AgentState → Except String AgentResult)
    (chal : Option String) (bid ch u ts : Option String) (t : String)
    (hbid : truthy bid = false) (ht : t ≠ "") :
    handle_api_gateway_event invoke
        (some ⟨some "event_callback", chal, some ⟨bid, some t, ch, u, ts⟩⟩)
      = (⟨200, statusBody "success"⟩, [⟨t⟩], []) := by
  simp [handle_api_gateway_event, handle_api_gateway_try, hbid, ht]

/-- C7: an `event_callback` whose extracted text is empty or missing invokes
no agent and is still answered with HTTP 200 (the deliberate no-op outcome):
in the webhook handler both for a falsy nested `text` and for a missing
nested `event` object, and in the socket-mode callback, which acks and posts
nothing.  The abstract IGNORED outcome is rendered as the absence of agent
invocations and replies. -/
theorem C7_empty_text_ignored :
    (∀ invoke chal bid tOpt ch u ts, truthy bid = false → truthy tOpt = false →
      handle_api_gateway_event invoke
          (some ⟨some "event_callback", chal, some ⟨bid, tOpt, ch, u, ts⟩⟩)
        = (⟨200, statusBody "success"⟩, [], []))
    ∧ (∀ invoke chal,
        handle_api_gateway_event invoke (some ⟨some "event_callback", chal, none⟩)
          = (⟨200, statusBody "success"⟩, [], []))
    ∧ (∀ ci runs ev, truthy ev.text = false →
        new_message_callback ci runs ev = .ok ⟨1, [], []⟩) := by
  refine ⟨fun invoke chal bid tOpt ch u ts hbid htext => ?_, fun invoke chal => rfl,
    fun ci runs ev htext => ?_⟩
  · have hm : tOpt.getD "" = "" := getD_empty_of_not_truthy htext
    simp [handle_api_gateway_event, handle_api_gateway_try, hbid, hm]
  · by_cases hch : ci ev.channel = some "all-ai-tools-testing" <;>
      simp [new_message_callback, hch, htext]

/-- C7 witness: concrete empty-text deliveries in both hosting modes. -/
theorem C7_witness :
    handle_api_gateway_event okInvoke
        (some ⟨some "event_callback", none,
          some ⟨none, none, some "C0", some "U0", some "171.009"⟩⟩)
      = (⟨200, statusBody "success"⟩, [], [])
    ∧ new_message_callback demoResolve okRun
        ⟨none, some "", some "C0", some "U0", some "171.009"⟩ = .ok ⟨1, [], []⟩ :=
  ⟨C7_empty_text_ignored.1 okInvoke none none none (some "C0") (some "U0")
      (some "171.009") rfl rfl,
    C7_empty_text_ignored.2.2 demoResolve okRun
      ⟨none, some "", some "C0", some "U0", some "171.009"⟩ (by decide)⟩

/-- C9: dispatch keeps no cross-event state — a batch of two identical
deliveries is handled as two independent invocations whose traces
concatenate, in both hosting modes, and an accepted event delivered twice
yields two identical AgentRequests. -/
theorem C9_duplicate_delivery_stateless :
    (∀ invoke b, runBatch invoke [b, b]
      = ([(handle_api_gateway_event invoke b).1, (handle_api_gateway_event invoke b).1],
         (handle_api_gateway_event invoke b).2.1 ++ (handle_api_gateway_event invoke b).2.1,
         (handle_api_gateway_event invoke b).2.2 ++ (handle_api_gateway_event invoke b).2.2))
    ∧ (∀ ci runs ev, runSocketBatch ci runs [ev, ev]
        = [new_message_callback ci runs ev, new_message_callback ci runs ev])
    ∧ (∀ invoke chal bid ch u ts t, truthy bid = false → t ≠ "" →
        (runBatch invoke
            [some ⟨some "event_callback", chal, some ⟨bid, some t, ch, u, ts⟩⟩,
             some ⟨some "event_callback", chal, some ⟨bid, some t, ch, u, ts⟩⟩]).2.1
          = [⟨t⟩, ⟨t⟩]) := by
  refine ⟨fun invoke b => ?_, fun ci runs ev => rfl,
    fun invoke chal bid ch u ts t hbid ht => ?_⟩
  · simp [runBatch]
  · simp [runBatch, handle_accepted invoke chal bid ch u ts t hbid ht]

/-- C9 witness: the accepted demo event delivered twice yields two identical
AgentRequests carrying its text. -/
theorem C9_witness :
    (runBatch okInvoke [some demoBody, some demoBody]).2.1
      = [⟨"hello"⟩, ⟨"hello"⟩] :=
  C9_duplicate_delivery_stateless.2.2 okInvoke none none (some "C0") (some "U0")
    (some "171.001") "hello" rfl (by decide)

/-- C10: `process_message_with_agent` is total over agent failures — every
exception of the agent invocation is caught and converted into a string
result; hence for any parsed body no exception escapes the body-handling
try-block whatever the agent does, and the webhook handler's 400/500 branches
are never reached via agent failure. -/
theorem C10_agent_failure_totality :
    (∀ invoke message e, invoke ⟨message, [], none⟩ = .error e →
        process_message_with_agent invoke message = apologyText e)
    ∧ (∀ invoke b, ∃ r, handle_api_gateway_try invoke (some b) = .ok r)
    ∧ (∀ invoke b, (handle_api_gateway_event invoke (some b)).1.statusCode ≠ 400
        ∧ (handle_api_gateway_event invoke (some b)).1.statusCode ≠ 500) := by
  refine ⟨fun invoke message e h => ?_, fun invoke b => ?_, fun invoke b => ?_⟩
  · simp [process_message_with_agent, process_message_try, h]
  · obtain ⟨bodyStr, reqs, h⟩ := api_gateway_try_ok invoke b
    exact ⟨_, h⟩
  · obtain ⟨bodyStr, reqs, h⟩ := api_gateway_try_ok invoke b
    simp [handle_api_gateway_event, h]

/-- C10 witness: a concrete failing agent is converted into a string result,
and the handler still answers the demo body without reaching 400/500. -/
theorem C10_witness :
    process_message_with_agent (fun _ => .error "boom") "hi" = apologyText "boom"
    ∧ (handle_api_gateway_event (fun _ => .error "boom") (some demoBody)).1.statusCode ≠ 400 :=
  ⟨C10_agent_failure_totality.1 (fun _ => .error "boom") "hi" "boom" rfl,
    (C10_agent_failure_totality.2.2 (fun _ => .error "boom") demoBody).1⟩

/-- C1 counterexample: the demo event — non-bot, text `"hello"`, from a
channel whose display name resolves (in the demo environment) to the
allow-listed name — is accepted by the webhook handler with exactly one
AgentRequest and a succeeding agent, yet the Reply Publisher is invoked zero
times, not exactly once: the handler only logs the agent response and posts
no threaded reply. -/
theorem C1_counterexample :
    demoResolve (some "C0") = some "all-ai-tools-testing"
    ∧ okInvoke ⟨"hello", [], none⟩ = .ok ⟨[⟨"ai", some "done"⟩]⟩
    ∧ (handle_api_gateway_event okInvoke (some demoBody)).2.1 = [⟨"hello"⟩]
    ∧ (handle_api_gateway_event okInvoke (some demoBody)).2.2 = []
    ∧ (handle_api_gateway_event okInvoke (some demoBody)).2.2.length ≠ 1 :=
  ⟨rfl, rfl, rfl, rfl, by decide⟩

/-- C1 (amended): an accepted event — allow-listed channel, non-bot author,
non-empty text `t`, succeeding agent — produces exactly one AgentRequest with
input text `t` in both hosting modes; the socket-mode callback additionally
posts exactly one threaded reply carrying the last agent-authored fragment's
content, anchored at the event's `ts`, while the webhook handler posts no
reply. -/
theorem C1_accepted_event (ci : Option String → Option String)
    (runs : String → Except String AgentResult)
    (invoke : AgentState → Except String AgentResult)
    (ev : SlackEvent) (t c : String) (res : AgentResult) (lastAi : AgentMessage)
    (hch : ci ev.channel = some "all-ai-tools-testing")
    (ht : ev.text = some t) (hne : t ≠ "")
    (hrun : runs t = .ok res)
    (hai : (res.messages.filter (fun m => m.type == "ai")).getLast? = some lastAi)
    (hc : lastAi.content = some c) :
    new_message_callback ci runs ev = .ok ⟨1, [⟨t⟩], [⟨ev.ts, c⟩]⟩
    ∧ (∀ chal bid chn u ts, truthy bid = false →
        handle_api_gateway_event invoke
            (some ⟨some "event_callback", chal, some ⟨bid, some t, chn, u, ts⟩⟩)
          = (⟨200, statusBody "success"⟩, [⟨t⟩], [])) := by
  constructor
  · simp [new_message_callback, create_agent_run, hch, ht, hne, hrun, hai, hc, truthy]
  · intro chal bid chn u ts hbid
    exact handle_accepted invoke chal bid chn u ts t hbid hne

/-- C1 witness: the amended claim at the concrete demo event in both modes. -/
theorem C1_witness :
    new_message_callback demoResolve okRun
        ⟨none, some "hello", some "C0", some "U0", some "171.001"⟩
      = .ok ⟨1, [⟨"hello"⟩], [⟨some "171.001", "done"⟩]⟩
    ∧ handle_api_gateway_event okInvoke (some demoBody)
      = (⟨200, statusBody "success"⟩, [⟨"hello"⟩], []) :=
  have h := C1_accepted_event demoResolve okRun okInvoke
    ⟨none, some "hello", some "C0", some "U0", some "171.001"⟩ "hello" "done"
    ⟨[⟨"ai", some "done"⟩]⟩ ⟨"ai", some "done"⟩ rfl rfl (by decide) rfl rfl rfl
  ⟨h.1, h.2 none none (some "C0") (some "U0") (some "171.001") rfl⟩

/-- C3 counterexample: a socket-mode event carrying a bot-author marker
(`bot_id = "B042"`), in the allow-listed channel with non-empty text, does
produce an AgentRequest — the socket-mode callback has no bot-author check,
so dispatch does not short-circuit in that hosting mode. -/
theorem C3_counterexample :
    truthy botEvent.bot_id = true
    ∧ new_message_callback demoResolve okRun botEvent
      = .ok ⟨1, [⟨"bot says hi"⟩], [⟨some "171.002", "done"⟩]⟩ :=
  ⟨rfl, rfl⟩

/-- C3 (amended): the webhook handler short-circuits bot-authored events with
the `ignored_bot_message` status and no side effects; the socket-mode
callback performs no bot-author check at all — its behaviour is invariant
under the event's `bot_id` field. -/
theorem C3_bot_filter_webhook_only :
    (∀ invoke chal ev, truthy ev.bot_id = true →
        handle_api_gateway_event invoke (some ⟨some "event_callback", chal, some ev⟩)
          = (⟨200, statusBody "ignored_bot_message"⟩, [], []))
    ∧ (∀ ci runs (ev : SlackEvent) b1 b2,
        new_message_callback ci runs ⟨b1, ev.text, ev.channel, ev.user, ev.ts⟩
          = new_message_callback ci runs ⟨b2, ev.text, ev.channel, ev.user, ev.ts⟩) := by
  refine ⟨fun invoke chal ev hbot => ?_, fun ci runs ev b1 b2 => rfl⟩
  simp [handle_api_gateway_event, handle_api_gateway_try, hbot]

/-- C3 witness: the amended claim at the concrete bot-authored event. -/
theorem C3_witness :
    handle_api_gateway_event okInvoke
        (some ⟨some "event_callback", none, some botEvent⟩)
      = (⟨200, statusBody "ignored_bot_message"⟩, [], []) :=
  C3_bot_filter_webhook_only.1 okInvoke none botEvent rfl

/-- C4 counterexample: an event from channel id `"C999"` — whose display name
resolves (in the demo environment) to `"random-channel"`, which differs
case-sensitively from the allow-listed name — still produces an AgentRequest
through the webhook handler: that hosting mode performs no channel lookup or
allow-list comparison at all. -/
theorem C4_counterexample :
    demoResolveOther (some "C999") = some "random-channel"
    ∧ (some "random-channel" : Option String) ≠ some "all-ai-tools-testing"
    ∧ (handle_api_gateway_event okInvoke (some otherChannelBody)).2.1
      = [⟨"hi there"⟩] :=
  ⟨rfl, by decide, rfl⟩

/-- C4 (amended): the socket-mode callback enforces the case-sensitive
channel allow-list — a non-matching resolved name short-circuits with only
the ack and no AgentRequest — while the webhook handler never reads the
event's channel field: its behaviour is invariant under it. -/
theorem C4_channel_filter_socket_only :
    (∀ ci runs ev, ci ev.channel ≠ some "all-ai-tools-testing" →
        new_message_callback ci runs ev = .ok ⟨1, [], []⟩)
    ∧ (∀ invoke chal bid t u ts c1 c2,
        handle_api_gateway_event invoke
            (some ⟨some "event_callback", chal, some ⟨bid, t, c1, u, ts⟩⟩)
          = handle_api_gateway_event invoke
            (some ⟨some "event_callback", chal, some ⟨bid, t, c2, u, ts⟩⟩)) := by
  refine ⟨fun ci runs ev hch => ?_, fun invoke chal bid t u ts c1 c2 => rfl⟩
  simp [new_message_callback, hch]

/-- C4 witness: the amended claim at a concrete non-allow-listed event. -/
theorem C4_witness :
    new_message_callback demoResolveOther okRun
        ⟨none, some "hi there", some "C999", some "U7", some "171.003"⟩
      = .ok ⟨1, [], []⟩ :=
  C4_channel_filter_socket_only.1 demoResolveOther okRun
    ⟨none, some "hi there", some "C999", some "U7", some "171.003"⟩ (by decide)

/-- C5 counterexample: on a successful run whose output sequence ends with a
non-agent-authored fragment (`[ai "A", human "B"]`), the webhook-mode client
returns `"B"`, the content of the last fragment regardless of its role tag —
not `"A"`, the content of the last agent-authored fragment. -/
theorem C5_counterexample :
    process_message_with_agent
        (fun _ => .ok ⟨[⟨"ai", some "A"⟩, ⟨"human", some "B"⟩]⟩) "q" = "B"
    ∧ ("B" : String) ≠ "A" :=
  ⟨rfl, by decide⟩

/-- C5 (amended): the webhook-mode client returns the content of the last
fragment of the run regardless of its role tag, falling back to the fixed
success phrase when the run has no fragments or the last fragment has no
content; the socket-mode client does select the last agent-authored (`"ai"`)
fragment, but raises an IndexError instead of falling back when no
agent-authored fragment exists. -/
theorem C5_reply_extraction :
    (∀ m msgs lastMsg c, msgs.getLast? = some lastMsg → lastMsg.content = some c →
        process_message_with_agent (fun _ => .ok ⟨msgs⟩) m = c)
    ∧ (∀ m msgs lastMsg, msgs.getLast? = some lastMsg → lastMsg.content = none →
        process_message_with_agent (fun _ => .ok ⟨msgs⟩) m = successText)
    ∧ (∀ m, process_message_with_agent (fun _ => .ok ⟨[]⟩) m = successText)
    ∧ (∀ ci runs ev t res, ci ev.channel = some "all-ai-tools-testing" →
        ev.text = some t → t ≠ "" → runs t = .ok res →
        (res.messages.filter (fun msg => msg.type == "ai")).getLast? = none →
        new_message_callback ci runs ev
          = .error "IndexError: list index out of range") := by
  refine ⟨fun m msgs lastMsg c h1 h2 => ?_, fun m msgs lastMsg h1 h2 => ?_,
    fun m => rfl, fun ci runs ev t res hch ht hne hrun hai => ?_⟩
  · simp [process_message_with_agent, process_message_try, h1, h2]
  · simp [process_message_with_agent, process_message_try, h1, h2]
  · simp [new_message_callback, create_agent_run, hch, ht, hne, hrun, hai, truthy]

/-- C5 witness: the amended claim at concrete runs — a last non-agent
fragment is returned verbatim by the webhook client, and the socket-mode
callback raises when the run contains no agent-authored fragment. -/
theorem C5_witness :
    process_message_with_agent (fun _ => .ok ⟨[⟨"human", some "B2"⟩]⟩) "q" = "B2"
    ∧ new_message_callback demoResolve (fun _ => .ok ⟨[⟨"human", some "B2"⟩]⟩)
        ⟨none, some "hey", some "C0", some "U0", some "171.004"⟩
      = .error "IndexError: list index out of range" :=
  ⟨C5_reply_extraction.1 "q" [⟨"human", some "B2"⟩] ⟨"human", some "B2"⟩ "B2" rfl rfl,
    C5_reply_extraction.2.2.2 demoResolve (fun _ => .ok ⟨[⟨"human", some "B2"⟩]⟩)
      ⟨none, some "hey", some "C0", some "U0", some "171.004"⟩ "hey"
      ⟨[⟨"human", some "B2"⟩]⟩ rfl rfl (by decide) rfl rfl⟩

/-- C6 counterexample: when the agent raises `"boom"`, the string produced
for the user is the apology prefix with the raw error text appended — it
contains `"boom"` and changes when the error changes, so it is not a fixed
apology free of internal error text. -/
theorem C6_counterexample :
    process_message_with_agent (fun _ => .error "boom") "q"
      = "Sorry, I encountered an error processing your message: boom"
    ∧ process_message_with_agent (fun _ => .error "boom") "q"
      ≠ process_message_with_agent (fun _ => .error "bang") "q" :=
  ⟨rfl, by decide⟩

/-- C6 (amended): when the agent fails, dispatch still answers the platform
with HTTP 200 and posts nothing to the chat surface in webhook mode; the
error is converted into an apology reply string that appends the raw internal
error text to a fixed prefix, rather than a fixed apology. -/
theorem C6_agent_error_status_ok :
    (∀ e m, process_message_with_agent (fun _ => .error e) m = apologyText e)
    ∧ (∀ e b, (handle_api_gateway_event (fun _ => .error e) (some b)).1.statusCode = 200)
    ∧ (∀ e b, (handle_api_gateway_event (fun _ => .error e) (some b)).2.2 = []) := by
  refine ⟨fun e m => rfl, fun e b => ?_, fun e b => ?_⟩
  · obtain ⟨bodyStr, reqs, h⟩ := api_gateway_try_ok (fun _ => .error e) b
    simp [handle_api_gateway_event, h]
  · obtain ⟨bodyStr, reqs, h⟩ := api_gateway_try_ok (fun _ => .error e) b
    simp [handle_api_gateway_event, h]

end SlackBot
